import Mathlib

/-!
Verification of the Academic Ledger and Analytics Engine of the
ICT-University school-website backend.

The definitions below are a shallow embedding of the Python source under
`backend/app` (services `grade_service.py`, `grade_service_optimized.py`,
`attendance_service.py` and repository `academic_repository.py`).  Python
floats are modelled as rationals, UUIDs and timestamps as naturals, and the
persistence gateway (spec section 6) as a plain list of records: the spec
states that storage-level atomicity and constraints are not assumed, the
engine's own validation is what matters.  The pydantic request schemas
(`schemas/academic.py`) are modelled where their validators take part in a
claim.
-/

/-- Assessment types accepted by the pydantic `GradeBase.validate_assessment_type`
validator (`quiz|exam|assignment|project|participation`, lower-cased). -/
inductive AssessmentType where
  | quiz
  | exam
  | assignment
  | project
  | participation
deriving DecidableEq, Repr

/-- Attendance statuses accepted by `AttendanceBase.validate_status`
(`present|absent|late|excused`, lower-cased). -/
inductive AttStatus where
  | present
  | absent
  | late
  | excused
deriving DecidableEq, Repr

/-- A course as the services read it from the Course/Enrollment directory:
`id`, `is_active` and the `enrolled_students` list. -/
structure Course where
  id : Nat
  isActive : Bool
  enrolledStudents : List Nat
  name : String
deriving DecidableEq, Repr

/-- Embedding of `CourseRepository.get_by_id`: first course with the
requested id. -/
def getCourse (dir : List Course) (cid : Nat) : Option Course :=
  dir.find? (fun c => c.id = cid)

/-- A stored grade row as the services and repository read it:
`student_id`, `course_id`, `assessment_type`, `score`, `max_score`, the
stored letter `grade`, `recorded_by` and `recorded_at`. -/
structure Grade where
  studentId : Nat
  courseId : Nat
  assessmentType : AssessmentType
  score : ℚ
  maxScore : ℚ
  grade : String
  recordedBy : Nat
  recordedAt : Nat
deriving DecidableEq, Repr

/-- Percentage of a stored grade, `(g.score / g.max_score) * 100`, as every
module computes it. -/
def gradePercentage (g : Grade) : ℚ :=
  g.score / g.maxScore * 100

/-- Embedding of `GradeService._calculate_letter_grade` (grade_service.py,
lines 408-441): the 12-step threshold chain from `>= 97 -> A+` down to `F`. -/
def calculate_letter_grade (percentage : ℚ) : String :=
  if percentage ≥ 97 then "A+"
  else if percentage ≥ 93 then "A"
  else if percentage ≥ 90 then "A-"
  else if percentage ≥ 87 then "B+"
  else if percentage ≥ 83 then "B"
  else if percentage ≥ 80 then "B-"
  else if percentage ≥ 77 then "C+"
  else if percentage ≥ 73 then "C"
  else if percentage ≥ 70 then "C-"
  else if percentage ≥ 67 then "D+"
  else if percentage ≥ 65 then "D"
  else "F"

/-- Embedding of `OptimizedGradeService._get_letter_grade_cached`
(grade_service_optimized.py, lines 159-185).  The `lru_cache` memoization
has no observable effect on the value, so the embedding is the bare
threshold chain. -/
def get_letter_grade_cached (percentage : ℚ) : String :=
  if percentage ≥ 97 then "A+"
  else if percentage ≥ 93 then "A"
  else if percentage ≥ 90 then "A-"
  else if percentage ≥ 87 then "B+"
  else if percentage ≥ 83 then "B"
  else if percentage ≥ 80 then "B-"
  else if percentage ≥ 77 then "C+"
  else if percentage ≥ 73 then "C"
  else if percentage ≥ 70 then "C-"
  else if percentage ≥ 67 then "D+"
  else if percentage ≥ 65 then "D"
  else "F"

/-- Embedding of `GradeRepository._score_to_letter_grade`
(academic_repository.py, lines 286-311). -/
def score_to_letter_grade (percentage : ℚ) : String :=
  if percentage ≥ 97 then "A+"
  else if percentage ≥ 93 then "A"
  else if percentage ≥ 90 then "A-"
  else if percentage ≥ 87 then "B+"
  else if percentage ≥ 83 then "B"
  else if percentage ≥ 80 then "B-"
  else if percentage ≥ 77 then "C+"
  else if percentage ≥ 73 then "C"
  else if percentage ≥ 70 then "C-"
  else if percentage ≥ 67 then "D+"
  else if percentage ≥ 65 then "D"
  else "F"

/-- Embedding of `GradeRepository._percentage_to_gpa`
(academic_repository.py, lines 209-234) and of the identical
`OptimizedGradeService._percentage_to_gpa` (grade_service_optimized.py,
lines 341-366): percentage to 4.0-scale GPA points, 12 bands. -/
def percentage_to_gpa (percentage : ℚ) : ℚ :=
  if percentage ≥ 97 then 4
  else if percentage ≥ 93 then 37/10
  else if percentage ≥ 90 then 33/10
  else if percentage ≥ 87 then 3
  else if percentage ≥ 83 then 27/10
  else if percentage ≥ 80 then 23/10
  else if percentage ≥ 77 then 2
  else if percentage ≥ 73 then 17/10
  else if percentage ≥ 70 then 13/10
  else if percentage ≥ 67 then 1
  else if percentage ≥ 65 then 7/10
  else 0

/-- One step of building the key set of the grouping dict. -/
def insertCourseKey (ks : List Nat) (g : Grade) : List Nat :=
  if g.courseId ∈ ks then ks else ks ++ [g.courseId]

/-- Course keys in first-occurrence order, as iterating a Python dict built
by `course_grades[grade.course_id].append(grade)` yields them (the grouping
loops of `GradeRepository.calculate_student_gpa`, lines 180-184, and
`OptimizedGradeService._calculate_gpa_optimized`, lines 319-324). -/
def courseKeys (grades : List Grade) : List Nat :=
  grades.foldl insertCourseKey []

/-- One step of the `latest_grades` loop of
`GradeRepository.calculate_student_gpa` (academic_repository.py, lines
188-194): keep the record with the greatest `recorded_at` per assessment
type (strict `>` comparison, so the earliest record wins ties). -/
def updLatest (acc : List (AssessmentType × Grade)) (g : Grade) :
    List (AssessmentType × Grade) :=
  match acc.find? (fun p => p.1 = g.assessmentType) with
  | none => acc ++ [(g.assessmentType, g)]
  | some old =>
      if old.2.recordedAt < g.recordedAt then
        acc.map (fun p => if p.1 = g.assessmentType then (g.assessmentType, g) else p)
      else acc

/-- Association from assessment type to the latest record of that type, in
first-occurrence order as a Python dict keeps it. -/
def latestPerType (gs : List Grade) : List (AssessmentType × Grade) :=
  gs.foldl updLatest []

/-- One step of the per-course accumulation of
`GradeRepository.calculate_student_gpa` (academic_repository.py, lines
187-205), accumulating `(total_points, total_credits)`. -/
def gpaFoldStep (grades : List Grade) (acc : ℚ × Nat) (cid : Nat) : ℚ × Nat :=
  let latest := latestPerType (grades.filter (fun g => g.courseId = cid))
  if latest ≠ [] then
    let course_average := (latest.map (fun p => gradePercentage p.2)).sum / latest.length
    (acc.1 + percentage_to_gpa course_average, acc.2 + 1)
  else acc

/-- Embedding of `GradeRepository.calculate_student_gpa`
(academic_repository.py, lines 169-207): filter the grade table by student,
group by course, take the latest record per assessment type inside each
course, average those percentages, convert each course average with
`_percentage_to_gpa`, and average the GPA points over the courses (one
credit per course).  Returns `none` with no grades or zero credits. -/
def calculate_student_gpa (db : List Grade) (student_id : Nat) : Option ℚ :=
  let grades := db.filter (fun g => g.studentId = student_id)
  if grades = [] then none
  else
    let totals := (courseKeys grades).foldl (gpaFoldStep grades) (0, 0)
    if 0 < totals.2 then some (totals.1 / totals.2) else none

/-- Embedding of `OptimizedGradeService._calculate_gpa_optimized`
(grade_service_optimized.py, lines 313-339): group by course, average the
percentages of all of the course's records, convert each course average
with `_percentage_to_gpa`, and average the GPA points over the courses. -/
def calculate_gpa_optimized (grades : List Grade) : Option ℚ :=
  if grades = [] then none
  else
    let keys := courseKeys grades
    let pts := keys.map (fun cid =>
      let course_scores := (grades.filter (fun g => g.courseId = cid)).map gradePercentage
      percentage_to_gpa (course_scores.sum / course_scores.length))
    if 0 < keys.length then some (pts.sum / keys.length) else none

/-- A grade input as the services receive it after the pydantic
`GradeCreate` schema has parsed the request body.  The
`validate_assessment_type` validator restricts the assessment type to the
fixed enum, which the `AssessmentType` type expresses directly. -/
structure GradeCreate where
  studentId : Nat
  courseId : Nat
  assessmentType : AssessmentType
  score : ℚ
  maxScore : ℚ
deriving DecidableEq, Repr

/-- The pydantic `GradeBase` field constraints that actually fire:
`score: Field(ge=0)` and `max_score: Field(gt=0)`.  The cross-field
`validate_score` check (`score <= max_score`) never fires, because pydantic
validates fields in declaration order and `max_score` is declared after
`score`, so `values` never contains `max_score` when the validator runs;
it is therefore deliberately absent from this embedding. -/
def gradeCreateSchemaOk (g : GradeCreate) : Bool :=
  decide (0 ≤ g.score) && decide (0 < g.maxScore)

/-- Errors raised by `GradeService.bulk_record_grades`; each Python
`ValueError` message interpolates the ids carried here (grade_service.py,
lines 307-315). -/
inductive GradeSvcErr where
  | courseNotFound (courseId : Nat)
  | courseInactive (courseId : Nat)
  | notEnrolled (studentId courseId : Nat)
deriving DecidableEq, Repr

/-- Validation applied to one input of the loop of
`GradeService.bulk_record_grades` (grade_service.py, lines 306-315):
course exists, course active, student enrolled.  Score bounds are not
re-checked here (only the pydantic schema constrains them). -/
def checkGradeInput (dir : List Course) (g : GradeCreate) : Option GradeSvcErr :=
  match getCourse dir g.courseId with
  | none => some (.courseNotFound g.courseId)
  | some course =>
    if ¬ course.isActive then some (.courseInactive g.courseId)
    else if course.enrolledStudents = [] ∨ g.studentId ∉ course.enrolledStudents then
      some (.notEnrolled g.studentId g.courseId)
    else none

/-- The validation loop of `GradeService.bulk_record_grades` raises on the
first failing input, so it is the first error of the input list. -/
def firstGradeError (dir : List Course) : List GradeCreate → Option GradeSvcErr
  | [] => none
  | g :: rest =>
    match checkGradeInput dir g with
    | some e => some e
    | none => firstGradeError dir rest

/-- Row built by the `grade_dict` preparation of the grade service
(grade_service.py, lines 317-329): letter grade from
`_calculate_letter_grade`, audit fields from the caller and the clock. -/
def mkGradeRow (g : GradeCreate) (recorded_by now : Nat) : Grade :=
  { studentId := g.studentId, courseId := g.courseId,
    assessmentType := g.assessmentType, score := g.score, maxScore := g.maxScore,
    grade := calculate_letter_grade (g.score / g.maxScore * 100),
    recordedBy := recorded_by, recordedAt := now }

/-- Embedding of `GradeService.bulk_record_grades` (grade_service.py, lines
289-337) over the persistence gateway modelled as a list: validate every
input (raising on the first failure, before any write), then derive letter
grades and bulk-create all rows. -/
def bulk_record_grades (dir : List Course) (st : List Grade)
    (inputs : List GradeCreate) (recorded_by now : Nat) :
    List Grade × Option GradeSvcErr :=
  match firstGradeError dir inputs with
  | some e => (st, some e)
  | none => (st ++ inputs.map (fun g => mkGradeRow g recorded_by now), none)

/-- Per-entry reasons collected by `OptimizedGradeService.record_grade_batch`
(grade_service_optimized.py, lines 62-75); the Python messages are
`"Grade {i}: Course not found"`, `"Grade {i}: Course is inactive"`,
`"Grade {i}: Student not enrolled"`, carrying the index and the reason. -/
inductive BatchErr where
  | courseNotFound
  | courseInactive
  | notEnrolled
deriving DecidableEq, Repr

/-- Validation applied to one input of `record_grade_batch`.  The Python
code looks the course up in `course_lookup`, a dict built from one query
over the distinct course ids of the batch; for ids occurring in the batch
that equals a direct `getCourse` lookup. -/
def checkBatchInput (dir : List Course) (g : GradeCreate) : Option BatchErr :=
  match getCourse dir g.courseId with
  | none => some .courseNotFound
  | some course =>
    if ¬ course.isActive then some .courseInactive
    else if course.enrolledStudents = [] ∨ g.studentId ∉ course.enrolledStudents then
      some .notEnrolled
    else none

/-- Row built by `record_grade_batch` for a validated input, using the
cached letter-grade table (grade_service_optimized.py, lines 77-87). -/
def mkGradeRowOpt (g : GradeCreate) (recorded_by now : Nat) : Grade :=
  { studentId := g.studentId, courseId := g.courseId,
    assessmentType := g.assessmentType, score := g.score, maxScore := g.maxScore,
    grade := get_letter_grade_cached (g.score / g.maxScore * 100),
    recordedBy := recorded_by, recordedAt := now }

/-- The enumerated validation loop of `record_grade_batch`
(grade_service_optimized.py, lines 59-87): each failing input contributes
`(index, reason)` to `validation_errors` and each passing input a prepared
row to `validated_grades`; `i` is the index of the head. -/
def batchValidate (dir : List Course) (recorded_by now : Nat) :
    Nat → List GradeCreate → List (Nat × BatchErr) × List Grade
  | _, [] => ([], [])
  | i, g :: rest =>
    let tail := batchValidate dir recorded_by now (i + 1) rest
    match checkBatchInput dir g with
    | some e => ((i, e) :: tail.1, tail.2)
    | none => (tail.1, mkGradeRowOpt g recorded_by now :: tail.2)

/-- Embedding of `OptimizedGradeService.record_grade_batch`
(grade_service_optimized.py, lines 29-97): empty input returns immediately;
otherwise all inputs are validated, a non-empty error list fails the whole
batch with the joined aggregate error and nothing is written, and an empty
error list bulk-creates every prepared row. -/
def record_grade_batch (dir : List Course) (st : List Grade)
    (inputs : List GradeCreate) (recorded_by now : Nat) :
    List Grade × Option (List (Nat × BatchErr)) :=
  if inputs = [] then (st, none)
  else
    let v := batchValidate dir recorded_by now 0 inputs
    if v.1 ≠ [] then (st, some v.1)
    else (st ++ v.2, none)

/-- Patch dictionary accepted by `GradeService.update_grade`; a field is
present when the Python dict has the key. -/
structure GradePatch where
  score : Option ℚ := none
  maxScore : Option ℚ := none
deriving DecidableEq, Repr

/-- Embedding of `GradeService.update_grade` (grade_service.py, lines
75-113) at the level of the record found by id: when `score` or
`max_score` is in the patch the letter grade is recomputed from the patched
values (a zero `max_score` raises `ZeroDivisionError`, caught and re-raised
as `ValueError` before `repo.update` runs, hence `none` and no write);
`recorded_by`/`recorded_at` are always overwritten with the updater and the
clock.  No score-bound validation is performed. -/
def update_grade (rec : Grade) (patch : GradePatch) (updated_by now : Nat) :
    Option Grade :=
  if patch.score.isSome ∨ patch.maxScore.isSome then
    let score := patch.score.getD rec.score
    let max_score := patch.maxScore.getD rec.maxScore
    if max_score = 0 then none
    else
      some { rec with
             score := score, maxScore := max_score,
             grade := calculate_letter_grade (score / max_score * 100),
             recordedBy := updated_by, recordedAt := now }
  else some { rec with recordedBy := updated_by, recordedAt := now }

/-- A stored attendance row as the attendance service reads it.  The
uniqueness key compares the calendar day (`func.date`), so the date is
modelled at day granularity. -/
structure Attendance where
  studentId : Nat
  courseId : Nat
  date : Nat
  status : AttStatus
  recordedBy : Nat
  recordedAt : Nat
deriving DecidableEq, Repr

/-- An attendance input after the pydantic `AttendanceCreate` schema has
parsed it; `validate_status` restricts the status to the fixed enum. -/
structure AttendanceCreate where
  studentId : Nat
  courseId : Nat
  date : Nat
  status : AttStatus
deriving DecidableEq, Repr

/-- Errors raised by the attendance service (attendance_service.py); the
constructors carry the ids the Python messages interpolate. -/
inductive LedgerErr where
  | notFound (courseId : Nat)
  | inactiveResource (courseId : Nat)
  | notEnrolled (studentId courseId : Nat)
  | duplicateRecord (studentId courseId date : Nat)
deriving DecidableEq, Repr

/-- Embedding of `AttendanceService._get_existing_attendance`
(attendance_service.py, lines 507-531): first stored record with the same
(student, course, day). -/
def get_existing_attendance (st : List Attendance) (sid cid d : Nat) :
    Option Attendance :=
  st.find? (fun a => a.studentId = sid ∧ a.courseId = cid ∧ a.date = d)

/-- Row stored by the attendance service: the input plus audit fields
(attendance_service.py, lines 66-70). -/
def mkAttendanceRow (inp : AttendanceCreate) (recorded_by now : Nat) : Attendance :=
  { studentId := inp.studentId, courseId := inp.courseId, date := inp.date,
    status := inp.status, recordedBy := recorded_by, recordedAt := now }

/-- Embedding of `AttendanceService.record_attendance`
(attendance_service.py, lines 24-79): course exists, course active, student
enrolled, no existing record for the same (student, course, day); every
failure raises before the create call, so the state is returned unchanged
beside the error. -/
def record_attendance (dir : List Course) (st : List Attendance)
    (inp : AttendanceCreate) (recorded_by now : Nat) :
    List Attendance × Option LedgerErr :=
  match getCourse dir inp.courseId with
  | none => (st, some (.notFound inp.courseId))
  | some course =>
    if ¬ course.isActive then (st, some (.inactiveResource inp.courseId))
    else if course.enrolledStudents = [] ∨ inp.studentId ∉ course.enrolledStudents then
      (st, some (.notEnrolled inp.studentId inp.courseId))
    else if (get_existing_attendance st inp.studentId inp.courseId inp.date).isSome then
      (st, some (.duplicateRecord inp.studentId inp.courseId inp.date))
    else (st ++ [mkAttendanceRow inp recorded_by now], none)

/-- Validation applied to one input of the loop of
`AttendanceService.bulk_record_attendance` (attendance_service.py, lines
232-251): the duplicate check consults only the stored state `st`, never
the other inputs of the batch. -/
def checkAttendanceInput (dir : List Course) (st : List Attendance)
    (inp : AttendanceCreate) : Option LedgerErr :=
  match getCourse dir inp.courseId with
  | none => some (.notFound inp.courseId)
  | some course =>
    if ¬ course.isActive then some (.inactiveResource inp.courseId)
    else if course.enrolledStudents = [] ∨ inp.studentId ∉ course.enrolledStudents then
      some (.notEnrolled inp.studentId inp.courseId)
    else if (get_existing_attendance st inp.studentId inp.courseId inp.date).isSome then
      some (.duplicateRecord inp.studentId inp.courseId inp.date)
    else none

/-- The validation loop of `bulk_record_attendance` raises on the first
failing input. -/
def firstAttendanceError (dir : List Course) (st : List Attendance) :
    List AttendanceCreate → Option LedgerErr
  | [] => none
  | inp :: rest =>
    match checkAttendanceInput dir st inp with
    | some e => some e
    | none => firstAttendanceError dir st rest

/-- Embedding of `AttendanceService.bulk_record_attendance`
(attendance_service.py, lines 215-269): validate every input against the
stored state, then bulk-create all rows; no write happens on a validation
failure. -/
def bulk_record_attendance (dir : List Course) (st : List Attendance)
    (inputs : List AttendanceCreate) (recorded_by now : Nat) :
    List Attendance × Option LedgerErr :=
  match firstAttendanceError dir st inputs with
  | some e => (st, some e)
  | none => (st ++ inputs.map (fun inp => mkAttendanceRow inp recorded_by now), none)

/-- Ledger states reachable from an empty store through successful
`record_attendance` calls. -/
inductive ReachableA (dir : List Course) : List Attendance → Prop where
  | empty : ReachableA dir []
  | step (st : List Attendance) (inp : AttendanceCreate) (recorded_by now : Nat)
      (st' : List Attendance) : ReachableA dir st →
      record_attendance dir st inp recorded_by now = (st', none) →
      ReachableA dir st'

/-- Number of stored records with the given (student, course, day) key. -/
def countKey (st : List Attendance) (sid cid d : Nat) : Nat :=
  (st.filter (fun a => a.studentId = sid ∧ a.courseId = cid ∧ a.date = d)).length

/-- Python's `str.lower()` over the characters of the string (the status
strings are ASCII, where per-character lowering is exact). -/
def strLower (s : String) : String :=
  ⟨s.data.map Char.toLower⟩

/-- Embedding of the status check of `AttendanceService.update_attendance`
(attendance_service.py, lines 99-102): `status.lower()` must be one of the
four allowed strings, and the lowered value is what gets stored. -/
def parseStatus (s : String) : Option AttStatus :=
  if strLower s = "present" then some .present
  else if strLower s = "absent" then some .absent
  else if strLower s = "late" then some .late
  else if strLower s = "excused" then some .excused
  else none

/-- Embedding of `AttendanceService.update_attendance`
(attendance_service.py, lines 81-115) at the level of the record found by
id: an invalid status raises before `repo.update`; otherwise status,
`recorded_by` and `recorded_at` are overwritten. -/
def update_attendance (rec : Attendance) (status : String) (updated_by now : Nat) :
    Option Attendance :=
  match parseStatus status with
  | none => none
  | some s => some { rec with status := s, recordedBy := updated_by, recordedAt := now }

/-- Daily tally of `generate_attendance_report` (attendance_service.py,
lines 374-383): zero counts for the four statuses, `total` set to the
number of that day's records up front, then one increment per record. -/
structure DailyStats where
  present : Nat
  absent : Nat
  late : Nat
  excused : Nat
  total : Nat
deriving DecidableEq, Repr

/-- One increment of `daily_stats[record.status] += 1`. -/
def bumpStat (stats : DailyStats) (s : AttStatus) : DailyStats :=
  match s with
  | .present => { stats with present := stats.present + 1 }
  | .absent => { stats with absent := stats.absent + 1 }
  | .late => { stats with late := stats.late + 1 }
  | .excused => { stats with excused := stats.excused + 1 }

/-- Tally of one day's records (attendance_service.py, lines 372-383). -/
def tallyDay (rs : List Attendance) : DailyStats :=
  rs.foldl (fun stats r => bumpStat stats r.status)
    { present := 0, absent := 0, late := 0, excused := 0, total := rs.length }

/-- Calendar days of `[start_date, end_date]` inclusive, the
`while current_date <= end_date` loops of the report. -/
def dayRange (start_date end_date : Nat) : List Nat :=
  List.range' start_date (end_date + 1 - start_date)

/-- Embedding of `AttendanceRepository.get_course_attendance` for a given
day (academic_repository.py, lines 345-356): the course's records whose
calendar day matches. -/
def get_course_attendance_on (db : List Attendance) (cid d : Nat) : List Attendance :=
  db.filter (fun r => r.courseId = cid ∧ r.date = d)

/-- Status-distribution dict of the report (attendance_service.py, lines
346-349), in first-encounter order as a Python dict keeps it. -/
def statusDistribution (rs : List Attendance) : List (AttStatus × Nat) :=
  rs.foldl (fun acc r =>
    match acc.find? (fun p => p.1 = r.status) with
    | none => acc ++ [(r.status, 1)]
    | some _ => acc.map (fun p => if p.1 = r.status then (p.1, p.2 + 1) else p)) []

/-- Lookup with default 0, `status_distribution.get(status, 0)`. -/
def statusCount (dist : List (AttStatus × Nat)) (s : AttStatus) : Nat :=
  match dist.find? (fun p => p.1 = s) with
  | none => 0
  | some p => p.2

/-- Python's `round(x, 2)`.  Python rounds floats half-to-even; the
rational embedding rounds half away from the even tie only at exact
`0.005` boundaries, which no theorem below depends on. -/
def round2 (q : ℚ) : ℚ :=
  round (q * 100) / 100

/-- Result record of `generate_attendance_report`; `daily` is the
`daily_attendance` dict as an association list in day order. -/
structure AttendanceReport where
  courseId : Nat
  courseName : String
  totalRecords : Nat
  overallRate : ℚ
  studentRates : List (Nat × ℚ)
  daily : List (Nat × DailyStats)
  statusDist : List (AttStatus × Nat)
deriving DecidableEq, Repr

/-- Record collection loop of the report (attendance_service.py, lines
321-326): fetch each day's course records over the range and concatenate. -/
def rangeAttendance (db : List Attendance) (cid sd ed : Nat) : List Attendance :=
  (dayRange sd ed).flatMap (fun d => get_course_attendance_on db cid d)

/-- Embedding of `AttendanceService.generate_attendance_report`
(attendance_service.py, lines 291-403): missing course raises `NotFound`;
defaults `end_date = today`, `start_date = end_date - 30`; records are
collected day by day over the range; a range with zero records returns the
early all-empty report (in particular an empty `daily_attendance`);
otherwise the status distribution, overall rate, per-student rates over the
course's enrolled students (0.0 for students without records) and the
per-day tallies over every day of the range are computed. -/
def generate_attendance_report (db : List Attendance) (dir : List Course)
    (cid : Nat) (start_date end_date : Option Nat) (today : Nat) :
    Except LedgerErr AttendanceReport :=
  match getCourse dir cid with
  | none => .error (.notFound cid)
  | some course =>
    let ed := end_date.getD today
    let sd := start_date.getD (ed - 30)
    let all_attendance := rangeAttendance db cid sd ed
    let total_records := all_attendance.length
    if total_records = 0 then
      .ok { courseId := cid, courseName := course.name, totalRecords := 0,
            overallRate := 0, studentRates := [], daily := [], statusDist := [] }
    else
      let dist := statusDistribution all_attendance
      let present_count := statusCount dist .present + statusCount dist .late
      let overall_attendance_rate := (present_count : ℚ) / total_records * 100
      let student_attendance_rates := course.enrolledStudents.map (fun sid =>
        let student_records := all_attendance.filter (fun r => r.studentId = sid)
        if student_records ≠ [] then
          let student_present := (student_records.filter
            (fun r => r.status = .present ∨ r.status = .late)).length
          (sid, round2 ((student_present : ℚ) / student_records.length * 100))
        else (sid, 0))
      let daily := (dayRange sd ed).map (fun d =>
        (d, tallyDay (all_attendance.filter (fun r => r.date = d))))
      .ok { courseId := cid, courseName := course.name,
            totalRecords := total_records,
            overallRate := round2 overall_attendance_rate,
            studentRates := student_attendance_rates,
            daily := daily, statusDist := dist }

/-- Two courses with one assessment each for student 1: course 10 at 95%,
course 20 at 75% (the spec's GPA round-trip example). -/
def gpaTwoCourseDb : List Grade :=
  [{ studentId := 1, courseId := 10, assessmentType := .exam, score := 95,
     maxScore := 100, grade := "A", recordedBy := 9, recordedAt := 1 },
   { studentId := 1, courseId := 20, assessmentType := .exam, score := 75,
     maxScore := 100, grade := "C", recordedBy := 9, recordedAt := 2 }]

/-- One course with two quizzes for student 2: an older quiz at 50% and a
newer one at 100%. -/
def gpaRepeatedQuizDb : List Grade :=
  [{ studentId := 2, courseId := 30, assessmentType := .quiz, score := 50,
     maxScore := 100, grade := "F", recordedBy := 9, recordedAt := 1 },
   { studentId := 2, courseId := 30, assessmentType := .quiz, score := 100,
     maxScore := 100, grade := "A+", recordedBy := 9, recordedAt := 2 }]

/-- Student 1 with course 10 carrying two 95% quizzes and course 20
carrying a single 75% exam: course record counts differ but per-course
means are 95 and 75. -/
def gpaManyAssessmentsDb : List Grade :=
  [{ studentId := 1, courseId := 10, assessmentType := .quiz, score := 95,
     maxScore := 100, grade := "A", recordedBy := 9, recordedAt := 1 },
   { studentId := 1, courseId := 10, assessmentType := .quiz, score := 19,
     maxScore := 20, grade := "A", recordedBy := 9, recordedAt := 2 },
   { studentId := 1, courseId := 20, assessmentType := .exam, score := 75,
     maxScore := 100, grade := "C", recordedBy := 9, recordedAt := 3 }]

/-- Directory with one active course (id 1) with student 5 enrolled. -/
def wAttDir : List Course :=
  [{ id := 1, isActive := true, enrolledStudents := [5], name := "CS101" }]

/-- Attendance input for student 5, course 1, day 7, present. -/
def wAttInp : AttendanceCreate :=
  { studentId := 5, courseId := 1, date := 7, status := .present }

/-- Second attendance input for the same (student, course, day) key. -/
def wAttInp2 : AttendanceCreate :=
  { studentId := 5, courseId := 1, date := 7, status := .absent }

/-- Grade input for an enrolled student in an active course whose score
exceeds its maximum score (150/100). -/
def wGradeBad : GradeCreate :=
  { studentId := 5, courseId := 1, assessmentType := .exam, score := 150, maxScore := 100 }

/-- Grade input referring to the missing course 5. -/
def wGradeBad5 : GradeCreate :=
  { studentId := 1, courseId := 5, assessmentType := .quiz, score := 10, maxScore := 20 }

/-- Grade input referring to the missing course 7. -/
def wGradeBad7 : GradeCreate :=
  { studentId := 1, courseId := 7, assessmentType := .quiz, score := 10, maxScore := 20 }

/-- Attendance records of course 1 on days 10-13 (4 of the 7 days of the
range 10-16). -/
def wReportDb : List Attendance :=
  [{ studentId := 5, courseId := 1, date := 10, status := .present, recordedBy := 9, recordedAt := 100 },
   { studentId := 5, courseId := 1, date := 11, status := .absent, recordedBy := 9, recordedAt := 101 },
   { studentId := 5, courseId := 1, date := 12, status := .late, recordedBy := 9, recordedAt := 102 },
   { studentId := 5, courseId := 1, date := 13, status := .present, recordedBy := 9, recordedAt := 103 }]

/-- A stored grade record at 80/100. -/
def wGradeRec : Grade :=
  { studentId := 5, courseId := 1, assessmentType := .exam, score := 80,
    maxScore := 100, grade := "B-", recordedBy := 7, recordedAt := 50 }

/-- Patch raising the score to 150 while the stored maxScore stays 100. -/
def wGradePatch : GradePatch := { score := some 150 }

/-- C9: the three independently written percentage-to-letter tables of the
grade service, the optimized service and the repository agree on every
percentage. -/
theorem letter_grade_tables_agree (p : ℚ) :
    calculate_letter_grade p = get_letter_grade_cached p ∧
    get_letter_grade_cached p = score_to_letter_grade p :=
  ⟨rfl, rfl⟩

lemma letter_grade_of_nonpos {p : ℚ} (h : p ≤ 0) : calculate_letter_grade p = "F" := by
  unfold calculate_letter_grade
  repeat rw [if_neg (by linarith)]

lemma letter_grade_of_ge100 {p : ℚ} (h : 100 ≤ p) : calculate_letter_grade p = "A+" := by
  unfold calculate_letter_grade
  rw [if_pos (by linarith)]

lemma gpa_of_ge97 {p : ℚ} (h : 97 ≤ p) : percentage_to_gpa p = 4 := by
  unfold percentage_to_gpa
  rw [if_pos (by linarith)]

lemma gpa_band93 {p : ℚ} (h1 : 93 ≤ p) (h2 : p < 97) : percentage_to_gpa p = 37/10 := by
  unfold percentage_to_gpa
  rw [if_neg (by linarith), if_pos (by linarith)]

lemma gpa_band90 {p : ℚ} (h1 : 90 ≤ p) (h2 : p < 93) : percentage_to_gpa p = 33/10 := by
  unfold percentage_to_gpa
  repeat rw [if_neg (by linarith)]
  rw [if_pos (by linarith)]

lemma gpa_band87 {p : ℚ} (h1 : 87 ≤ p) (h2 : p < 90) : percentage_to_gpa p = 3 := by
  unfold percentage_to_gpa
  repeat rw [if_neg (by linarith)]
  rw [if_pos (by linarith)]

lemma gpa_band83 {p : ℚ} (h1 : 83 ≤ p) (h2 : p < 87) : percentage_to_gpa p = 27/10 := by
  unfold percentage_to_gpa
  repeat rw [if_neg (by linarith)]
  rw [if_pos (by linarith)]

lemma gpa_band80 {p : ℚ} (h1 : 80 ≤ p) (h2 : p < 83) : percentage_to_gpa p = 23/10 := by
  unfold percentage_to_gpa
  repeat rw [if_neg (by linarith)]
  rw [if_pos (by linarith)]

lemma gpa_band77 {p : ℚ} (h1 : 77 ≤ p) (h2 : p < 80) : percentage_to_gpa p = 2 := by
  unfold percentage_to_gpa
  repeat rw [if_neg (by linarith)]
  rw [if_pos (by linarith)]

lemma gpa_band73 {p : ℚ} (h1 : 73 ≤ p) (h2 : p < 77) : percentage_to_gpa p = 17/10 := by
  unfold percentage_to_gpa
  repeat rw [if_neg (by linarith)]
  rw [if_pos (by linarith)]

lemma gpa_band70 {p : ℚ} (h1 : 70 ≤ p) (h2 : p < 73) : percentage_to_gpa p = 13/10 := by
  unfold percentage_to_gpa
  repeat rw [if_neg (by linarith)]
  rw [if_pos (by linarith)]

lemma gpa_band67 {p : ℚ} (h1 : 67 ≤ p) (h2 : p < 70) : percentage_to_gpa p = 1 := by
  unfold percentage_to_gpa
  repeat rw [if_neg (by linarith)]
  rw [if_pos (by linarith)]

lemma gpa_band65 {p : ℚ} (h1 : 65 ≤ p) (h2 : p < 67) : percentage_to_gpa p = 7/10 := by
  unfold percentage_to_gpa
  repeat rw [if_neg (by linarith)]
  rw [if_pos (by linarith)]

lemma gpa_lt65 {p : ℚ} (h : p < 65) : percentage_to_gpa p = 0 := by
  unfold percentage_to_gpa
  repeat rw [if_neg (by linarith)]

lemma gpa_of_nonpos {p : ℚ} (h : p ≤ 0) : percentage_to_gpa p = 0 :=
  gpa_lt65 (by linarith)

lemma gpa_of_ge100 {p : ℚ} (h : 100 ≤ p) : percentage_to_gpa p = 4 :=
  gpa_of_ge97 (by linarith)

lemma gpa_lt65_le {p : ℚ} (h : p < 65) : percentage_to_gpa p ≤ 0 :=
  (gpa_lt65 h).le

lemma gpa_lt67_le {p : ℚ} (h : p < 67) : percentage_to_gpa p ≤ 7/10 := by
  rcases le_or_lt 65 p with h2 | h2
  · exact (gpa_band65 h2 h).le
  · exact (gpa_lt65_le h2).trans (by norm_num)

lemma gpa_lt70_le {p : ℚ} (h : p < 70) : percentage_to_gpa p ≤ 1 := by
  rcases le_or_lt 67 p with h2 | h2
  · exact (gpa_band67 h2 h).le
  · exact (gpa_lt67_le h2).trans (by norm_num)

lemma gpa_lt73_le {p : ℚ} (h : p < 73) : percentage_to_gpa p ≤ 13/10 := by
  rcases le_or_lt 70 p with h2 | h2
  · exact (gpa_band70 h2 h).le
  · exact (gpa_lt70_le h2).trans (by norm_num)

lemma gpa_lt77_le {p : ℚ} (h : p < 77) : percentage_to_gpa p ≤ 17/10 := by
  rcases le_or_lt 73 p with h2 | h2
  · exact (gpa_band73 h2 h).le
  · exact (gpa_lt73_le h2).trans (by norm_num)

lemma gpa_lt80_le {p : ℚ} (h : p < 80) : percentage_to_gpa p ≤ 2 := by
  rcases le_or_lt 77 p with h2 | h2
  · exact (gpa_band77 h2 h).le
  · exact (gpa_lt77_le h2).trans (by norm_num)

lemma gpa_lt83_le {p : ℚ} (h : p < 83) : percentage_to_gpa p ≤ 23/10 := by
  rcases le_or_lt 80 p with h2 | h2
  · exact (gpa_band80 h2 h).le
  · exact (gpa_lt80_le h2).trans (by norm_num)

lemma gpa_lt87_le {p : ℚ} (h : p < 87) : percentage_to_gpa p ≤ 27/10 := by
  rcases le_or_lt 83 p with h2 | h2
  · exact (gpa_band83 h2 h).le
  · exact (gpa_lt83_le h2).trans (by norm_num)

lemma gpa_lt90_le {p : ℚ} (h : p < 90) : percentage_to_gpa p ≤ 3 := by
  rcases le_or_lt 87 p with h2 | h2
  · exact (gpa_band87 h2 h).le
  · exact (gpa_lt87_le h2).trans (by norm_num)

lemma gpa_lt93_le {p : ℚ} (h : p < 93) : percentage_to_gpa p ≤ 33/10 := by
  rcases le_or_lt 90 p with h2 | h2
  · exact (gpa_band90 h2 h).le
  · exact (gpa_lt90_le h2).trans (by norm_num)

lemma gpa_lt97_le {p : ℚ} (h : p < 97) : percentage_to_gpa p ≤ 37/10 := by
  rcases le_or_lt 93 p with h2 | h2
  · exact (gpa_band93 h2 h).le
  · exact (gpa_lt93_le h2).trans (by norm_num)

lemma gpa_le_four (p : ℚ) : percentage_to_gpa p ≤ 4 := by
  rcases le_or_lt 97 p with h2 | h2
  · exact (gpa_of_ge97 h2).le
  · exact (gpa_lt97_le h2).trans (by norm_num)

lemma gpa_monotone {p q : ℚ} (hpq : p ≤ q) :
    percentage_to_gpa p ≤ percentage_to_gpa q := by
  rcases le_or_lt 97 q with h | h
  · rw [gpa_of_ge97 h]; exact gpa_le_four p
  rcases le_or_lt 93 q with h2 | h2
  · rw [gpa_band93 h2 h]; exact gpa_lt97_le (by linarith)
  rcases le_or_lt 90 q with h3 | h3
  · rw [gpa_band90 h3 h2]; exact gpa_lt93_le (by linarith)
  rcases le_or_lt 87 q with h4 | h4
  · rw [gpa_band87 h4 h3]; exact gpa_lt90_le (by linarith)
  rcases le_or_lt 83 q with h5 | h5
  · rw [gpa_band83 h5 h4]; exact gpa_lt87_le (by linarith)
  rcases le_or_lt 80 q with h6 | h6
  · rw [gpa_band80 h6 h5]; exact gpa_lt83_le (by linarith)
  rcases le_or_lt 77 q with h7 | h7
  · rw [gpa_band77 h7 h6]; exact gpa_lt80_le (by linarith)
  rcases le_or_lt 73 q with h8 | h8
  · rw [gpa_band73 h8 h7]; exact gpa_lt77_le (by linarith)
  rcases le_or_lt 70 q with h9 | h9
  · rw [gpa_band70 h9 h8]; exact gpa_lt73_le (by linarith)
  rcases le_or_lt 67 q with h10 | h10
  · rw [gpa_band67 h10 h9]; exact gpa_lt70_le (by linarith)
  rcases le_or_lt 65 q with h11 | h11
  · rw [gpa_band65 h11 h10]; exact gpa_lt67_le (by linarith)
  · rw [gpa_lt65 h11]; exact gpa_lt65_le (by linarith)

/-- C6: the classification is insensitive to clamping into `[0,100]` (so
out-of-range inputs get the boundary letter and boundary GPA points, and no
input errors), and the GPA points are monotone non-decreasing in the
percentage. -/
theorem classification_clamped_and_monotone (p q : ℚ) (hpq : p ≤ q) :
    percentage_to_gpa p ≤ percentage_to_gpa q ∧
    calculate_letter_grade (max 0 (min p 100)) = calculate_letter_grade p ∧
    percentage_to_gpa (max 0 (min p 100)) = percentage_to_gpa p := by
  refine ⟨gpa_monotone hpq, ?_, ?_⟩ <;>
  · rcases le_or_lt p 0 with h0 | h0
    · have hmin : min p 100 = p := min_eq_left (by linarith)
      have hmax : max 0 p = 0 := max_eq_left h0
      rw [hmin, hmax]
      first
        | rw [letter_grade_of_nonpos h0, letter_grade_of_nonpos le_rfl]
        | rw [gpa_of_nonpos h0, gpa_of_nonpos le_rfl]
    · rcases le_or_lt 100 p with h1 | h1
      · have hmin : min p 100 = 100 := min_eq_right h1
        rw [hmin]
        have hmax : max (0:ℚ) 100 = 100 := max_eq_right (by norm_num)
        rw [hmax]
        first
          | rw [letter_grade_of_ge100 h1, letter_grade_of_ge100 le_rfl]
          | rw [gpa_of_ge100 h1, gpa_of_ge100 le_rfl]
      · have hmin : min p 100 = p := min_eq_left (by linarith)
        have hmax : max 0 p = p := max_eq_right (by linarith)
        rw [hmin, hmax]

/-- Witness for `classification_clamped_and_monotone` at `p = -7`, `q = 130`. -/
theorem classification_clamped_and_monotone_witness :
    percentage_to_gpa (-7) ≤ percentage_to_gpa 130 ∧
    calculate_letter_grade (max 0 (min (-7) 100)) = calculate_letter_grade (-7) ∧
    percentage_to_gpa (max 0 (min (-7) 100)) = percentage_to_gpa (-7) :=
  classification_clamped_and_monotone (-7) 130 (by norm_num)

lemma mem_foldl_insertCourseKey (gs : List Grade) (acc : List Nat) (c : Nat)
    (h : c ∈ acc) : c ∈ gs.foldl insertCourseKey acc := by
  induction gs generalizing acc with
  | nil => exact h
  | cons g t ih =>
    simp only [List.foldl_cons]
    apply ih
    unfold insertCourseKey
    by_cases hm : g.courseId ∈ acc
    · rw [if_pos hm]; exact h
    · rw [if_neg hm]; exact List.mem_append_left _ h

lemma mem_courseKeys_aux (gs : List Grade) (acc : List Nat) (g : Grade)
    (h : g ∈ gs) : g.courseId ∈ gs.foldl insertCourseKey acc := by
  induction gs generalizing acc with
  | nil => cases h
  | cons a t ih =>
    simp only [List.foldl_cons]
    rcases List.mem_cons.mp h with rfl | ht
    · apply mem_foldl_insertCourseKey
      unfold insertCourseKey
      by_cases hm : g.courseId ∈ acc
      · rw [if_pos hm]; exact hm
      · rw [if_neg hm]
        exact List.mem_append_right _ (List.mem_singleton_self _)
    · exact ih _ ht

lemma mem_courseKeys {grades : List Grade} {g : Grade} (h : g ∈ grades) :
    g.courseId ∈ courseKeys grades :=
  mem_courseKeys_aux grades [] g h

lemma courseKeys_ne_nil {grades : List Grade} (h : grades ≠ []) :
    courseKeys grades ≠ [] := by
  cases grades with
  | nil => exact absurd rfl h
  | cons g t => exact List.ne_nil_of_mem (mem_courseKeys (List.mem_cons_self g t))

lemma courseKeys_sound_aux (gs : List Grade) (acc : List Nat) (c : Nat)
    (h : c ∈ gs.foldl insertCourseKey acc) :
    c ∈ acc ∨ ∃ g ∈ gs, g.courseId = c := by
  induction gs generalizing acc with
  | nil => exact Or.inl h
  | cons a t ih =>
    simp only [List.foldl_cons] at h
    rcases ih _ h with hacc | ⟨g, hg, rfl⟩
    · unfold insertCourseKey at hacc
      by_cases hm : a.courseId ∈ acc
      · rw [if_pos hm] at hacc; exact Or.inl hacc
      · rw [if_neg hm] at hacc
        rcases List.mem_append.mp hacc with h1 | h1
        · exact Or.inl h1
        · exact Or.inr ⟨a, List.mem_cons_self a t, (List.mem_singleton.mp h1).symm⟩
    · exact Or.inr ⟨g, List.mem_cons_of_mem a hg, rfl⟩

lemma filter_course_ne_nil {grades : List Grade} {c : Nat}
    (h : c ∈ courseKeys grades) :
    grades.filter (fun g => g.courseId = c) ≠ [] := by
  rcases courseKeys_sound_aux grades [] c h with h0 | ⟨g, hg, hc⟩
  · cases h0
  · exact List.ne_nil_of_mem (List.mem_filter.mpr ⟨hg, by simp [hc]⟩)

lemma length_le_updLatest (acc : List (AssessmentType × Grade)) (g : Grade) :
    acc.length ≤ (updLatest acc g).length := by
  unfold updLatest
  cases hf : acc.find? (fun p => p.1 = g.assessmentType) with
  | none => simp
  | some old =>
    dsimp only
    split_ifs <;> simp

lemma length_le_foldl_updLatest (gs : List Grade)
    (acc : List (AssessmentType × Grade)) :
    acc.length ≤ (gs.foldl updLatest acc).length := by
  induction gs generalizing acc with
  | nil => exact le_rfl
  | cons g t ih =>
    simp only [List.foldl_cons]
    exact le_trans (length_le_updLatest acc g) (ih _)

lemma latestPerType_ne_nil {gs : List Grade} (h : gs ≠ []) :
    latestPerType gs ≠ [] := by
  cases gs with
  | nil => exact absurd rfl h
  | cons g t =>
    have hlen : 1 ≤ (latestPerType (g :: t)).length := by
      unfold latestPerType
      simp only [List.foldl_cons]
      have h1 : (updLatest [] g).length = 1 := by simp [updLatest]
      calc 1 = (updLatest [] g).length := h1.symm
        _ ≤ _ := length_le_foldl_updLatest t _
    intro hnil
    rw [hnil] at hlen
    simp at hlen

lemma gpaFold_credits (grades : List Grade) (keys : List Nat) (acc : ℚ × Nat)
    (h : ∀ c ∈ keys, grades.filter (fun g => g.courseId = c) ≠ []) :
    (keys.foldl (gpaFoldStep grades) acc).2 = acc.2 + keys.length := by
  induction keys generalizing acc with
  | nil => simp
  | cons c t ih =>
    simp only [List.foldl_cons]
    have hne : latestPerType (grades.filter (fun g => g.courseId = c)) ≠ [] :=
      latestPerType_ne_nil (h c (List.mem_cons_self c t))
    have hstep : (gpaFoldStep grades acc c).2 = acc.2 + 1 := by
      simp [gpaFoldStep, if_pos hne]
    rw [ih _ (fun x hx => h x (List.mem_cons_of_mem c hx)), hstep]
    simp only [List.length_cons]
    omega

lemma calculate_student_gpa_none_iff (db : List Grade) (sid : Nat) :
    calculate_student_gpa db sid = none ↔
      db.filter (fun g => g.studentId = sid) = [] := by
  constructor
  · intro h
    by_contra hne
    have hkeys := courseKeys_ne_nil hne
    have hcred := gpaFold_credits (db.filter (fun g => g.studentId = sid))
      (courseKeys (db.filter (fun g => g.studentId = sid))) (0, 0)
      (fun c hc => filter_course_ne_nil hc)
    have hpos : 0 < ((courseKeys (db.filter (fun g => g.studentId = sid))).foldl
        (gpaFoldStep (db.filter (fun g => g.studentId = sid))) (0, 0)).2 := by
      rw [hcred]
      have := List.length_pos.mpr hkeys
      omega
    unfold calculate_student_gpa at h
    rw [if_neg hne, if_pos hpos] at h
    cases h
  · intro h
    unfold calculate_student_gpa
    rw [if_pos h]

lemma calculate_gpa_optimized_none_iff (grades : List Grade) :
    calculate_gpa_optimized grades = none ↔ grades = [] := by
  constructor
  · intro h
    by_contra hne
    have hkeys := courseKeys_ne_nil hne
    have hpos : 0 < (courseKeys grades).length := List.length_pos.mpr hkeys
    unfold calculate_gpa_optimized at h
    rw [if_neg hne, if_pos hpos] at h
    cases h
  · intro h
    unfold calculate_gpa_optimized
    rw [if_pos h]

/-- C1 counterexample: for the two-course student averaging 95% and 75%
both GPA implementations return 2.7 (the 12-band table maps 95 to 3.7 and
75 to 1.7), not the claimed 3.0; and on a course with an older 50% quiz and
a newer 100% quiz the repository keeps only the latest record per
assessment type (GPA 4.0) while the mean over all of the course's records
gives 1.7, so the two cited implementations do not even agree on one
procedure. -/
theorem gpa_claim_counterexample :
    calculate_student_gpa gpaTwoCourseDb 1 = some (27/10) ∧
    calculate_gpa_optimized (gpaTwoCourseDb.filter (fun g => g.studentId = 1)) =
      some (27/10) ∧
    (27/10 : ℚ) ≠ 3 ∧
    calculate_student_gpa gpaRepeatedQuizDb 2 = some 4 ∧
    calculate_gpa_optimized (gpaRepeatedQuizDb.filter (fun g => g.studentId = 2)) =
      some (17/10) := by
  refine ⟨?_, ?_, by norm_num, ?_, ?_⟩
  · norm_num [calculate_student_gpa, gpaTwoCourseDb, courseKeys, insertCourseKey,
      gpaFoldStep, latestPerType, updLatest, List.filter, List.foldl, List.find?,
      percentage_to_gpa, gradePercentage]
    exact fun h => absurd h (List.cons_ne_nil _ _)
  · norm_num [calculate_gpa_optimized, gpaTwoCourseDb, courseKeys, insertCourseKey,
      List.filter, List.foldl, percentage_to_gpa, gradePercentage]
    exact fun h => absurd h (List.cons_ne_nil _ _)
  · norm_num [calculate_student_gpa, gpaRepeatedQuizDb, courseKeys, insertCourseKey,
      gpaFoldStep, latestPerType, updLatest, List.filter, List.foldl, List.find?,
      percentage_to_gpa, gradePercentage]
    exact fun h => absurd h (List.cons_ne_nil _ _)
  · norm_num [calculate_gpa_optimized, gpaRepeatedQuizDb, courseKeys, insertCourseKey,
      List.filter, List.foldl, percentage_to_gpa, gradePercentage]
    exact fun h => absurd h (List.cons_ne_nil _ _)

/-- C1 amended: the overall GPA averages the 12-band GPA points of the
per-course means across courses (the optimized service means over all of a
course's records, the repository over the latest record per assessment
type), it is `None` exactly when the student has no grade records, and the
two-course student with per-course means 95% and 75% gets 2.7 regardless of
how many assessments each course contains. -/
theorem gpa_per_course_mean_amended (db grades : List Grade) (sid : Nat) :
    (calculate_student_gpa db sid = none ↔
      db.filter (fun g => g.studentId = sid) = []) ∧
    (calculate_gpa_optimized grades = none ↔ grades = []) ∧
    calculate_student_gpa gpaManyAssessmentsDb 1 = some (27/10) ∧
    calculate_gpa_optimized (gpaManyAssessmentsDb.filter (fun g => g.studentId = 1)) =
      some (27/10) := by
  refine ⟨calculate_student_gpa_none_iff db sid,
    calculate_gpa_optimized_none_iff grades, ?_, ?_⟩
  · norm_num [calculate_student_gpa, gpaManyAssessmentsDb, courseKeys, insertCourseKey,
      gpaFoldStep, latestPerType, updLatest, List.filter, List.foldl, List.find?,
      percentage_to_gpa, gradePercentage]
    exact fun h => absurd h (List.cons_ne_nil _ _)
  · norm_num [calculate_gpa_optimized, gpaManyAssessmentsDb, courseKeys, insertCourseKey,
      List.filter, List.foldl, percentage_to_gpa, gradePercentage]
    exact fun h => absurd h (List.cons_ne_nil _ _)

lemma record_attendance_success {dir : List Course} {st st' : List Attendance}
    {inp : AttendanceCreate} {rb now : Nat}
    (h : record_attendance dir st inp rb now = (st', none)) :
    st' = st ++ [mkAttendanceRow inp rb now] ∧
    get_existing_attendance st inp.studentId inp.courseId inp.date = none ∧
    ∃ course, getCourse dir inp.courseId = some course ∧ course.isActive = true ∧
      ¬(course.enrolledStudents = [] ∨ inp.studentId ∉ course.enrolledStudents) := by
  unfold record_attendance at h
  rcases hgc : getCourse dir inp.courseId with _ | course
  · rw [hgc] at h; simp at h
  · rw [hgc] at h
    dsimp only at h
    by_cases h1 : course.isActive = true
    · rw [if_neg (not_not_intro h1)] at h
      by_cases h2 : course.enrolledStudents = [] ∨ inp.studentId ∉ course.enrolledStudents
      · rw [if_pos h2] at h; simp at h
      · rw [if_neg h2] at h
        by_cases h3 : (get_existing_attendance st inp.studentId inp.courseId inp.date).isSome
        · rw [if_pos h3] at h; simp at h
        · rw [if_neg h3] at h
          have hl := congrArg Prod.fst h
          exact ⟨hl.symm, Option.not_isSome_iff_eq_none.mp h3, course, rfl, h1, h2⟩
    · rw [if_pos h1] at h; simp at h

lemma countKey_append (st1 st2 : List Attendance) (sid cid d : Nat) :
    countKey (st1 ++ st2) sid cid d = countKey st1 sid cid d + countKey st2 sid cid d := by
  simp [countKey, List.filter_append]

lemma countKey_eq_zero_of_none {st : List Attendance} {sid cid d : Nat}
    (h : get_existing_attendance st sid cid d = none) :
    countKey st sid cid d = 0 := by
  unfold get_existing_attendance at h
  rw [List.find?_eq_none] at h
  unfold countKey
  rw [List.length_eq_zero, List.filter_eq_nil_iff]
  exact h

lemma countKey_singleton_own (inp : AttendanceCreate) (rb now : Nat) :
    countKey [mkAttendanceRow inp rb now] inp.studentId inp.courseId inp.date = 1 := by
  simp [countKey, mkAttendanceRow, List.filter]

lemma countKey_singleton_le (a : Attendance) (sid cid d : Nat) :
    countKey [a] sid cid d ≤ 1 := by
  simpa [countKey] using
    List.length_filter_le (fun a => decide (a.studentId = sid ∧ a.courseId = cid ∧ a.date = d)) [a]

lemma reachable_countKey_le_one {dir : List Course} {st : List Attendance}
    (h : ReachableA dir st) (sid cid d : Nat) : countKey st sid cid d ≤ 1 := by
  induction h with
  | empty => simp [countKey]
  | step st0 inp rb now st' hr hrec ih =>
    obtain ⟨hst', hnone, -⟩ := record_attendance_success hrec
    subst hst'
    rw [countKey_append]
    by_cases hkey : inp.studentId = sid ∧ inp.courseId = cid ∧ inp.date = d
    · obtain ⟨rfl, rfl, rfl⟩ := hkey
      rw [countKey_eq_zero_of_none hnone, countKey_singleton_own]
    · have hz : countKey [mkAttendanceRow inp rb now] sid cid d = 0 := by
        unfold countKey
        rw [List.length_eq_zero, List.filter_eq_nil_iff]
        intro a ha
        rcases List.mem_singleton.mp ha with rfl
        simp only [mkAttendanceRow, decide_eq_true_eq]
        exact fun hc => hkey hc
      rw [hz]
      simpa using ih

/-- C3: from any state reachable through successful `record_attendance`
calls there is at most one attendance record per (student, course, day);
after a successful call, a second call for the same key fails with the
`DuplicateRecord` error, returns the state unchanged, and exactly one
record with that key is stored. -/
theorem attendance_unique_per_day (dir : List Course) (st st' : List Attendance)
    (inp inp2 : AttendanceCreate) (rb now rb2 now2 : Nat)
    (hfst : record_attendance dir st inp rb now = (st', none))
    (hsid : inp2.studentId = inp.studentId) (hcid : inp2.courseId = inp.courseId)
    (hd : inp2.date = inp.date) :
    record_attendance dir st' inp2 rb2 now2 =
      (st', some (.duplicateRecord inp2.studentId inp2.courseId inp2.date)) ∧
    countKey st' inp.studentId inp.courseId inp.date = 1 ∧
    (∀ s, ReachableA dir s → ∀ sid cid d, countKey s sid cid d ≤ 1) := by
  obtain ⟨hst', hnone, course, hgc, hact, henr⟩ := record_attendance_success hfst
  have hcount : countKey st' inp.studentId inp.courseId inp.date = 1 := by
    subst hst'
    rw [countKey_append, countKey_eq_zero_of_none hnone, countKey_singleton_own]
  refine ⟨?_, hcount, fun s hs sid cid d => reachable_countKey_le_one hs sid cid d⟩
  have hdup : (get_existing_attendance st' inp.studentId inp.courseId inp.date).isSome := by
    subst hst'
    unfold get_existing_attendance
    rw [List.find?_isSome]
    refine ⟨mkAttendanceRow inp rb now,
      List.mem_append_right _ (List.mem_singleton_self _), ?_⟩
    simp [mkAttendanceRow]
  unfold record_attendance
  rw [hsid, hcid, hd, hgc]
  dsimp only
  rw [if_neg (not_not_intro hact), if_neg henr, if_pos hdup]

/-- Witness for `attendance_unique_per_day`: student 5, course 1, day 7. -/
theorem attendance_unique_per_day_witness :
    record_attendance wAttDir [mkAttendanceRow wAttInp 9 100] wAttInp2 9 101 =
      ([mkAttendanceRow wAttInp 9 100],
        some (.duplicateRecord wAttInp2.studentId wAttInp2.courseId wAttInp2.date)) ∧
    countKey [mkAttendanceRow wAttInp 9 100] wAttInp.studentId wAttInp.courseId
      wAttInp.date = 1 ∧
    (∀ s, ReachableA wAttDir s → ∀ sid cid d, countKey s sid cid d ≤ 1) :=
  attendance_unique_per_day wAttDir [] [mkAttendanceRow wAttInp 9 100]
    wAttInp wAttInp2 9 100 9 101 (by rfl) rfl rfl rfl

/-- C2 failing-input evaluation: the input with score 150 over maxScore 100
passes every check that actually fires (the pydantic cross-field
`validate_score` check is dead because `max_score` is validated after
`score`), so the bulk call succeeds and persists the record with letter
grade `A+` and `score > maxScore`, instead of failing with zero writes. -/
theorem bulk_grades_accept_excess_score :
    gradeCreateSchemaOk wGradeBad = true ∧
    bulk_record_grades wAttDir [] [wGradeBad] 9 100 =
      ([mkGradeRow wGradeBad 9 100], none) ∧
    (mkGradeRow wGradeBad 9 100).score > (mkGradeRow wGradeBad 9 100).maxScore ∧
    (mkGradeRow wGradeBad 9 100).grade = "A+" := by
  refine ⟨?_, rfl, ?_, ?_⟩
  · norm_num [gradeCreateSchemaOk, wGradeBad]
  · norm_num [mkGradeRow, wGradeBad]
  · norm_num [mkGradeRow, wGradeBad, calculate_letter_grade]

/-- C4 failing-input evaluation: a batch holding two inputs with the same
(student, course, day) key, on an empty store, passes validation (the
duplicate check consults only storage) and both rows are written: the
batch succeeds and the store ends with two records for one key. -/
theorem bulk_attendance_intra_batch_duplicate :
    bulk_record_attendance wAttDir [] [wAttInp, wAttInp2] 9 100 =
      ([mkAttendanceRow wAttInp 9 100, mkAttendanceRow wAttInp2 9 100], none) ∧
    countKey [mkAttendanceRow wAttInp 9 100, mkAttendanceRow wAttInp2 9 100]
      wAttInp.studentId wAttInp.courseId wAttInp.date = 2 ∧
    wAttInp2.studentId = wAttInp.studentId ∧ wAttInp2.courseId = wAttInp.courseId ∧
    wAttInp2.date = wAttInp.date :=
  ⟨rfl, rfl, rfl, rfl, rfl⟩

lemma batchValidate_errors_mem (dir : List Course) (rb now : Nat) :
    ∀ (inputs : List GradeCreate) (k i : Nat) (e : BatchErr),
      ((i, e) ∈ (batchValidate dir rb now k inputs).1 ↔
        ∃ j g, inputs[j]? = some g ∧ i = k + j ∧ checkBatchInput dir g = some e) := by
  intro inputs
  induction inputs with
  | nil => intro k i e; simp [batchValidate]
  | cons a rest ih =>
    intro k i e
    cases hc : checkBatchInput dir a with
    | some e0 =>
      simp only [batchValidate, hc, List.mem_cons]
      constructor
      · rintro (heq | hmem)
        · obtain ⟨rfl, rfl⟩ := Prod.mk.injEq .. ▸ heq
          exact ⟨0, a, by simp, by omega, hc⟩
        · obtain ⟨j, g, hj, rfl, hg⟩ := (ih (k + 1) i e).mp hmem
          exact ⟨j + 1, g, by simpa using hj, by omega, hg⟩
      · rintro ⟨j, g, hj, rfl, hg⟩
        cases j with
        | zero =>
          simp only [List.getElem?_cons_zero, Option.some.injEq] at hj
          subst hj
          rw [hc] at hg
          left
          simp [Option.some.injEq] at hg
          simp [hg]
        | succ j' =>
          right
          refine (ih (k + 1) (k + (j' + 1)) e).mpr ⟨j', g, ?_, by omega, hg⟩
          simpa using hj
    | none =>
      simp only [batchValidate, hc]
      constructor
      · intro hmem
        obtain ⟨j, g, hj, rfl, hg⟩ := (ih (k + 1) i e).mp hmem
        exact ⟨j + 1, g, by simpa using hj, by omega, hg⟩
      · rintro ⟨j, g, hj, rfl, hg⟩
        cases j with
        | zero =>
          simp only [List.getElem?_cons_zero, Option.some.injEq] at hj
          subst hj
          rw [hc] at hg
          cases hg
        | succ j' =>
          refine (ih (k + 1) (k + (j' + 1)) e).mpr ⟨j', g, ?_, by omega, hg⟩
          simpa using hj

/-- C5 counterexample: a grade batch holding two invalid entries (missing
courses 5 and 7) fails with exactly the first entry's error - the very
error the one-entry batch produces - so the aggregate error carries no
information about the second offender. -/
theorem bulk_error_first_only_counterexample :
    checkGradeInput [] wGradeBad5 = some (.courseNotFound 5) ∧
    checkGradeInput [] wGradeBad7 = some (.courseNotFound 7) ∧
    bulk_record_grades [] [] [wGradeBad5, wGradeBad7] 9 100 =
      ([], some (.courseNotFound 5)) ∧
    bulk_record_grades [] [] [wGradeBad5] 9 100 = ([], some (.courseNotFound 5)) :=
  ⟨rfl, rfl, rfl, rfl⟩

/-- C5 amended: only the optimized batch path aggregates every offending
entry - its single error lists exactly the (index, reason) pairs of the
failing inputs, with nothing written - while `bulk_record_grades` and
`bulk_record_attendance` fail fast, reporting the first offending entry's
error alone whatever the rest of the batch contains. -/
theorem batch_error_aggregation_amended (dir : List Course) (st : List Grade)
    (sta : List Attendance) (inputs : List GradeCreate) (rb now : Nat) :
    ((batchValidate dir rb now 0 inputs).1 ≠ [] →
      record_grade_batch dir st inputs rb now =
        (st, some (batchValidate dir rb now 0 inputs).1)) ∧
    (∀ i e, (i, e) ∈ (batchValidate dir rb now 0 inputs).1 ↔
      ∃ g, inputs[i]? = some g ∧ checkBatchInput dir g = some e) ∧
    (∀ g rest e, checkGradeInput dir g = some e →
      bulk_record_grades dir st (g :: rest) rb now = (st, some e)) ∧
    (∀ a arest e, checkAttendanceInput dir sta a = some e →
      bulk_record_attendance dir sta (a :: arest) rb now = (sta, some e)) := by
  refine ⟨?_, ?_, ?_, ?_⟩
  · intro herr
    have hne : inputs ≠ [] := by
      rintro rfl
      exact herr rfl
    unfold record_grade_batch
    rw [if_neg hne]
    dsimp only
    rw [if_pos herr]
  · intro i e
    rw [batchValidate_errors_mem dir rb now inputs 0 i e]
    constructor
    · rintro ⟨j, g, hj, rfl, hg⟩
      exact ⟨g, by simpa using hj, hg⟩
    · rintro ⟨g, hi, hg⟩
      exact ⟨i, g, hi, by omega, hg⟩
  · intro g rest e h
    simp [bulk_record_grades, firstGradeError, h]
  · intro a arest e h
    simp [bulk_record_attendance, firstAttendanceError, h]

/-- Witness for `batch_error_aggregation_amended` on the one-entry batch
referring to the missing course 5. -/
theorem batch_error_aggregation_amended_witness :
    ((batchValidate [] 9 100 0 [wGradeBad5]).1 ≠ [] →
      record_grade_batch [] [] [wGradeBad5] 9 100 =
        ([], some (batchValidate [] 9 100 0 [wGradeBad5]).1)) ∧
    (∀ i e, (i, e) ∈ (batchValidate [] 9 100 0 [wGradeBad5]).1 ↔
      ∃ g, [wGradeBad5][i]? = some g ∧ checkBatchInput [] g = some e) ∧
    (∀ g rest e, checkGradeInput [] g = some e →
      bulk_record_grades [] [] (g :: rest) 9 100 = ([], some e)) ∧
    (∀ a arest e, checkAttendanceInput [] [] a = some e →
      bulk_record_attendance [] [] (a :: arest) 9 100 = ([], some e)) :=
  batch_error_aggregation_amended [] [] [] [wGradeBad5] 9 100

/-- C7 counterexample: over the 7-day range 10-16 with an existing course
and zero records in range, the report takes the early zero-record return
and its daily breakdown is empty - 0 daily entries, not 7 all-zero ones. -/
theorem report_zero_record_range_counterexample :
    generate_attendance_report [] wAttDir 1 (some 10) (some 16) 100 =
      .ok { courseId := 1, courseName := "CS101", totalRecords := 0,
            overallRate := 0, studentRates := [], daily := [], statusDist := [] } ∧
    (dayRange 10 16).length = 7 :=
  ⟨rfl, rfl⟩

/-- C7 amended: when at least one record falls in the range, the report
holds one daily entry per calendar day of `[startDate, endDate]` inclusive,
each the tally of that day's records, and a day with no records carries the
all-zero tally; when the whole range has zero records the report returns
the early all-empty payload with an empty daily breakdown. -/
theorem report_daily_entries_amended (db : List Attendance) (dir : List Course)
    (cid sd ed today : Nat) (course : Course)
    (hc : getCourse dir cid = some course)
    (hne : rangeAttendance db cid sd ed ≠ []) :
    ∃ rep, generate_attendance_report db dir cid (some sd) (some ed) today = .ok rep ∧
      rep.daily = (dayRange sd ed).map (fun d =>
        (d, tallyDay ((rangeAttendance db cid sd ed).filter (fun r => r.date = d)))) ∧
      rep.daily.length = ed + 1 - sd ∧
      (∀ d, d ∈ dayRange sd ed →
        (rangeAttendance db cid sd ed).filter (fun r => r.date = d) = [] →
        (d, { present := 0, absent := 0, late := 0, excused := 0, total := 0 }) ∈ rep.daily) := by
  have hlen : (rangeAttendance db cid sd ed).length ≠ 0 := by
    simpa [List.length_eq_zero] using hne
  unfold generate_attendance_report
  rw [hc]
  dsimp only
  simp only [Option.getD_some]
  rw [if_neg hlen]
  refine ⟨_, rfl, rfl, ?_, ?_⟩
  · simp [List.length_map, dayRange, List.length_range']
  · intro d hd hempty
    have hmem : (d, tallyDay ((rangeAttendance db cid sd ed).filter (fun r => r.date = d))) ∈
        (dayRange sd ed).map (fun d =>
          (d, tallyDay ((rangeAttendance db cid sd ed).filter (fun r => r.date = d)))) :=
      List.mem_map_of_mem _ hd
    rw [hempty] at hmem
    simpa [tallyDay] using hmem

/-- Witness for `report_daily_entries_amended`: the 7-day range 10-16 with
records on 4 of the days. -/
theorem report_daily_entries_amended_witness :
    ∃ rep, generate_attendance_report wReportDb wAttDir 1 (some 10) (some 16) 100 =
        .ok rep ∧
      rep.daily = (dayRange 10 16).map (fun d =>
        (d, tallyDay ((rangeAttendance wReportDb 1 10 16).filter (fun r => r.date = d)))) ∧
      rep.daily.length = 16 + 1 - 10 ∧
      (∀ d, d ∈ dayRange 10 16 →
        (rangeAttendance wReportDb 1 10 16).filter (fun r => r.date = d) = [] →
        (d, { present := 0, absent := 0, late := 0, excused := 0, total := 0 }) ∈ rep.daily) :=
  report_daily_entries_amended wReportDb wAttDir 1 10 16 100
    { id := 1, isActive := true, enrolledStudents := [5], name := "CS101" }
    rfl (by decide)

/-- C8 counterexample: patching score to 150 on a record with maxScore 100
is accepted - the update succeeds, stores score 150 > maxScore 100 and
re-derives the letter grade to `A+` - instead of being rejected without
modifying the record. -/
theorem update_grade_no_bounds_check_counterexample :
    update_grade wGradeRec wGradePatch 9 100 =
      some { studentId := 5, courseId := 1, assessmentType := .exam, score := 150,
             maxScore := 100, grade := "A+", recordedBy := 9, recordedAt := 100 } ∧
    (150 : ℚ) > 100 := by
  constructor
  · norm_num [update_grade, wGradeRec, wGradePatch, calculate_letter_grade]
  · norm_num

/-- C8 amended: whenever score or maxScore is present in the patch,
`update_grade` re-derives the stored letter grade from the classification
table over the patched values; the only patch it rejects (failing before
any write) is one whose resulting maxScore is exactly 0, via the division
error - score/maxScore bound violations are not validated and the patch is
applied. -/
theorem update_grade_amended (rec : Grade) (patch : GradePatch) (u now : Nat)
    (h : patch.score.isSome ∨ patch.maxScore.isSome) :
    (patch.maxScore.getD rec.maxScore = 0 → update_grade rec patch u now = none) ∧
    (patch.maxScore.getD rec.maxScore ≠ 0 →
      update_grade rec patch u now =
        some { rec with
               score := patch.score.getD rec.score,
               maxScore := patch.maxScore.getD rec.maxScore,
               grade := calculate_letter_grade
                 (patch.score.getD rec.score / patch.maxScore.getD rec.maxScore * 100),
               recordedBy := u, recordedAt := now }) := by
  unfold update_grade
  rw [if_pos h]
  constructor <;> intro h0 <;> simp [h0]

/-- Witness for `update_grade_amended` at the score-150 patch. -/
theorem update_grade_amended_witness :
    (wGradePatch.maxScore.getD wGradeRec.maxScore = 0 →
      update_grade wGradeRec wGradePatch 9 100 = none) ∧
    (wGradePatch.maxScore.getD wGradeRec.maxScore ≠ 0 →
      update_grade wGradeRec wGradePatch 9 100 =
        some { wGradeRec with
               score := wGradePatch.score.getD wGradeRec.score,
               maxScore := wGradePatch.maxScore.getD wGradeRec.maxScore,
               grade := calculate_letter_grade
                 (wGradePatch.score.getD wGradeRec.score /
                   wGradePatch.maxScore.getD wGradeRec.maxScore * 100),
               recordedBy := 9, recordedAt := 100 }) :=
  update_grade_amended wGradeRec wGradePatch 9 100 (Or.inl rfl)

/-- C10: every successful `update_grade` or `update_attendance` call stores
the updating user as `recorded_by` and the update time as `recorded_at`,
so the original recorder and recording time are not preserved. -/
theorem update_overwrites_recorder (rec g : Grade) (patch : GradePatch)
    (arec a : Attendance) (status : String) (u now u2 now2 : Nat)
    (hg : update_grade rec patch u now = some g)
    (ha : update_attendance arec status u2 now2 = some a) :
    g.recordedBy = u ∧ g.recordedAt = now ∧ a.recordedBy = u2 ∧ a.recordedAt = now2 := by
  have h1 : g.recordedBy = u ∧ g.recordedAt = now := by
    unfold update_grade at hg
    by_cases hp : patch.score.isSome ∨ patch.maxScore.isSome
    · rw [if_pos hp] at hg
      dsimp only at hg
      by_cases hz : patch.maxScore.getD rec.maxScore = 0
      · rw [if_pos hz] at hg
        cases hg
      · rw [if_neg hz] at hg
        obtain rfl : g = _ := (Option.some.inj hg).symm
        exact ⟨rfl, rfl⟩
    · rw [if_neg hp] at hg
      obtain rfl : g = _ := (Option.some.inj hg).symm
      exact ⟨rfl, rfl⟩
  have h2 : a.recordedBy = u2 ∧ a.recordedAt = now2 := by
    unfold update_attendance at ha
    cases hs : parseStatus status with
    | none => rw [hs] at ha; cases ha
    | some s =>
      rw [hs] at ha
      obtain rfl : a = _ := (Option.some.inj ha).symm
      exact ⟨rfl, rfl⟩
  exact ⟨h1.1, h1.2, h2.1, h2.2⟩

/-- Witness for `update_overwrites_recorder`: an empty grade patch by user
9 at time 100 and a status update to `late` by user 11 at time 200. -/
theorem update_overwrites_recorder_witness :
    ({ wGradeRec with recordedBy := 9, recordedAt := 100 } : Grade).recordedBy = 9 ∧
    ({ wGradeRec with recordedBy := 9, recordedAt := 100 } : Grade).recordedAt = 100 ∧
    ({ mkAttendanceRow wAttInp 9 100 with
       status := AttStatus.late, recordedBy := 11, recordedAt := 200 } : Attendance).recordedBy = 11 ∧
    ({ mkAttendanceRow wAttInp 9 100 with
       status := AttStatus.late, recordedBy := 11, recordedAt := 200 } : Attendance).recordedAt = 200 :=
  update_overwrites_recorder wGradeRec _ {} (mkAttendanceRow wAttInp 9 100) _
    "late" 9 100 11 200 rfl (by rfl)
